import Mathlib

/-!
# Verification of the crowdfunding project discovery and donation engine

A shallow embedding of the `pages` app of the crowdfunding web application
(`pages/models.py`, `pages/project_services.py`), together with proofs of the
testable properties stated in the specification.

Modelling conventions:
* Django model rows become Lean structures; foreign keys become identifier
  fields, and the columns reached through a join (category name, creator
  names) are inlined on the row, as the query code reads them.
* `DecimalField` money values are modelled as exact rationals `ℚ`.
* Timestamps are seconds as `ℤ`; Python `timedelta.days` is floor division
  by 86400, which matches `Int` division (Euclidean) for the positive
  divisor used here.
* A Django queryset is a `List` of rows.  `order_by` with a key list is
  modelled as a stable sort (`List.insertionSort`): rows that tie on the key
  keep the order in which the store yields them, since the SQL translation
  specifies no further ordering.
* `raise ValueError` becomes `Except.error`; operations that mutate the
  store return the post state explicitly, and every error branch returns
  the entry state, as the Python code raises before any write.
-/

/-- A row of `Projects` (`pages/models.py`), with the joined columns
(`category__name`, `creator__first_name`, `creator__last_name`) inlined. -/
structure Project where
  id : Nat
  title : String
  description : String
  about_project : String
  target_amount : ℚ
  donation_amount : ℚ
  category_name : String
  creator_id : Nat
  creator_first_name : String
  creator_last_name : String
  status : String
  created_at : Int
  end_date : Int
  donors : Int
  views_count : Int
deriving DecidableEq

/-- A row of `Donation` (`pages/models.py`); `id` is the primary key. -/
structure DonationRec where
  id : Nat
  projectId : Nat
  donorId : Nat
  amount : ℚ
  message : String
  is_anonymous : Bool
  created_at : Int
deriving DecidableEq

/-- A row of `ProjectComment` (`pages/models.py`). -/
structure CommentRec where
  id : Nat
  projectId : Nat
  userId : Nat
  created_at : Int
deriving DecidableEq

/-- A row of `ProjectLike` (`pages/models.py`). -/
structure LikeRec where
  id : Nat
  projectId : Nat
  userId : Nat
  created_at : Int
deriving DecidableEq

/-- The relational store holding the four entity tables. -/
structure Store where
  projects : List Project
  donations : List DonationRec
  comments : List CommentRec
  likes : List LikeRec
deriving DecidableEq

/-- `Projects.funded_percentage` (`pages/models.py` lines 82 to 87):
`min((donation_amount / target_amount) * 100, 100)` when `target_amount > 0`,
else `0`. -/
def funded_percentage (p : Project) : ℚ :=
  if 0 < p.target_amount then
    min ((p.donation_amount / p.target_amount) * 100) 100
  else 0

/-- `Projects.days_left` (`pages/models.py` lines 94 to 100):
`(end_date - now).days` when the end date is in the future, else `0`.
Python `timedelta.days` floors the number of whole days. -/
def days_left (p : Project) (now : Int) : Int :=
  if now < p.end_date then (p.end_date - now) / 86400 else 0

/-- `Projects.remaining_amount` (`pages/models.py` lines 89 to 92). -/
def remaining_amount (p : Project) : ℚ :=
  max (p.target_amount - p.donation_amount) 0

/-- `Projects.is_funded` (`pages/models.py` lines 102 to 105). -/
def is_funded (p : Project) : Bool :=
  decide (p.target_amount ≤ p.donation_amount)

/-- Look a project row up by primary key (`Projects.objects.get(id=...)` /
`refresh_from_db`). -/
def findProject (s : Store) (pid : Nat) : Option Project :=
  s.projects.find? (fun p => p.id == pid)

/-- `Donation.save` (`pages/models.py` lines 131 to 141) for a new row
(`is_new` holds, as the only caller modelled creates fresh rows): the row is
inserted, then the parent project gains `amount` on `donation_amount` and,
when `Donation.objects.filter(project, donor).exclude(pk=self.pk)` finds no
other donation by the same donor to the same project, one extra donor.  The
exclude-self check runs over the post-insert table, exactly as in the code. -/
def donation_save (s : Store) (d : DonationRec) : Store :=
  let donations := s.donations ++ [d]
  let hadPrior := donations.any
    (fun e => e.projectId == d.projectId && e.donorId == d.donorId && !(e.id == d.id))
  { s with
    donations := donations,
    projects := s.projects.map (fun p =>
      if p.id == d.projectId then
        { p with
          donation_amount := p.donation_amount + d.amount,
          donors := p.donors + (if hadPrior then 0 else 1) }
      else p) }

/-- Whether the donor already has a donation to the project in the store
(the state of `Donation.objects.filter(project=..., donor=...)` before the
new row is inserted). -/
def hadPriorDonation (s : Store) (pid uid : Nat) : Bool :=
  s.donations.any (fun e => e.projectId == pid && e.donorId == uid)

/-- The dictionary returned by `ProjectsService.process_donation`. -/
structure DonationResult where
  donationId : Nat
  goal_reached : Bool
  new_funded_percentage : ℚ
deriving DecidableEq

/-- `ProjectsService.process_donation` (`pages/project_services.py` lines
182 to 214).  Validation raises before any write, so every error branch
returns the entry store unchanged; on success the donation row is created
(which triggers `Donation.save`), the project is re-read, and the result
reports goal state and the new funded percentage.  `freshId` stands for the
auto-assigned primary key of the new row. -/
def process_donation (s : Store) (p : Project) (userId : Nat) (amount : ℚ)
    (message : String) (is_anonymous : Bool) (now : Int) (freshId : Nat) :
    Store × Except String DonationResult :=
  if days_left p now ≤ 0 then
    (s, Except.error "Project campaign has ended")
  else if amount < 1 then
    (s, Except.error "Minimum donation amount is 1.00")
  else if !(p.status == "active") then
    (s, Except.error "Project is not active")
  else
    let d : DonationRec := ⟨freshId, p.id, userId, amount, message, is_anonymous, now⟩
    let s₂ := donation_save s d
    let p₂ := (findProject s₂ p.id).getD p
    (s₂, Except.ok ⟨freshId, decide (p₂.target_amount ≤ p₂.donation_amount),
                    funded_percentage p₂⟩)

/-- `DonationService.check_donation_eligibility` (`pages/project_services.py`
lines 276 to 290): collects error messages and reports eligibility as
`errors.length == 0`. -/
def check_donation_eligibility (p : Project) (userId : Nat) (now : Int) :
    Bool × List String :=
  let errors : List String :=
    (if p.creator_id == userId then ["You cannot donate to your own project"] else []) ++
    (if days_left p now ≤ 0 then ["This projects campaign has ended"] else []) ++
    (if !(p.status == "active") then ["This project is not currently accepting donations"] else [])
  (errors.length == 0, errors)

/-! ## Search, filter and sort (`ProjectsService.search_projects`,
`ProjectsService.get_featured_projects`) -/

/-- Case-insensitive substring match (Django `icontains`). -/
def icontains (hay pat : String) : Bool :=
  decide ((pat.toList.map Char.toLower) <:+: (hay.toList.map Char.toLower))

/-- The disjunctive free-text predicate of `search_projects`
(`pages/project_services.py` lines 30 to 38). -/
def matchesQuery (query : String) (p : Project) : Bool :=
  icontains p.title query ||
  icontains p.description query ||
  icontains p.about_project query ||
  icontains p.category_name query ||
  icontains p.creator_first_name query ||
  icontains p.creator_last_name query

/-- The relevance annotation of `search_projects` (`pages/project_services.py`
lines 76 to 80): `Count(field, filter=Q(field__icontains=query))` over the
own row is `1` on a match and `0` otherwise, weighted 3 / 2 / 1. -/
def relevanceScore (query : String) (p : Project) : Nat :=
  (if icontains p.title query then 1 else 0) * 3 +
  (if icontains p.description query then 1 else 0) * 2 +
  (if icontains p.category_name query then 1 else 0)

/-- The filter dictionary accepted by `search_projects`.  Python tests each
entry for truthiness, so an absent key and a falsy value (empty string,
zero) behave alike; both are kept so the embedding mirrors the code. -/
structure SearchFilters where
  category : Option String
  min_amount : Option ℚ
  max_amount : Option ℚ
  status : Option String
  sort : Option String
deriving DecidableEq

/-- The empty filter dictionary. -/
def noFilters : SearchFilters := ⟨none, none, none, none, none⟩

/-- The `sort_options` dictionary of `search_projects`
(`pages/project_services.py` lines 62 to 71). -/
def sort_options : List (String × String) :=
  [("newest", "-created_at"),
   ("oldest", "created_at"),
   ("most_funded", "-donation_amount"),
   ("least_funded", "donation_amount"),
   ("ending_soon", "end_date"),
   ("most_popular", "-views_count"),
   ("alphabetical", "title"),
   ("relevance", "-score")]

/-- `sort_options.get(sort_by, '-created_at')`. -/
def resolvedOrderKey (filters : SearchFilters) : String :=
  (sort_options.lookup (filters.sort.getD "newest")).getD "-created_at"

/-- The comparison realised by `order_by(key)` for each column expression
occurring in `search_projects`; a leading `-` is a descending key. -/
def orderLE (query : String) (key : String) (a b : Project) : Bool :=
  match key with
  | "created_at" => decide (a.created_at ≤ b.created_at)
  | "-created_at" => decide (b.created_at ≤ a.created_at)
  | "donation_amount" => decide (a.donation_amount ≤ b.donation_amount)
  | "-donation_amount" => decide (b.donation_amount ≤ a.donation_amount)
  | "end_date" => decide (a.end_date ≤ b.end_date)
  | "-views_count" => decide (b.views_count ≤ a.views_count)
  | "title" => decide (a.title ≤ b.title)
  | "-score" => decide (relevanceScore query b ≤ relevanceScore query a)
  | _ => decide (b.created_at ≤ a.created_at)

/-- A `Bool` comparator read as a relation, for `List.insertionSort`. -/
def boolRel {α : Type} (f : α → α → Bool) : α → α → Prop :=
  fun a b => f a b = true

instance {α : Type} (f : α → α → Bool) : DecidableRel (boolRel f) :=
  fun a b => instDecidableEqBool (f a b) true

/-- `order_by` over a queryset, modelled as a stable sort: rows tied on the
key keep the order in which the store yields them (SQL leaves that order
unspecified; the model fixes it to the input order). -/
def djangoSort (le : Project → Project → Bool) (l : List Project) : List Project :=
  List.insertionSort (boolRel le) l

/-- The filtering phase of `ProjectsService.search_projects`
(`pages/project_services.py` lines 21 to 59): base active set, disjunctive
free-text match, then the conjunctive category / amount / status filters.
The specification names this phase `filter_projects`. -/
def filter_projects (query : String) (filters : SearchFilters) (now : Int)
    (projects : List Project) : List Project :=
  let qs := projects.filter (fun p => p.status == "active")
  let qs := if query ≠ "" then qs.filter (matchesQuery query) else qs
  let qs := match filters.category with
    | some c => if c ≠ "" then qs.filter (fun p => p.category_name == c) else qs
    | none => qs
  let qs := match filters.min_amount with
    | some m => if m ≠ 0 then qs.filter (fun p => decide (m ≤ p.target_amount)) else qs
    | none => qs
  let qs := match filters.max_amount with
    | some m => if m ≠ 0 then qs.filter (fun p => decide (p.target_amount ≤ m)) else qs
    | none => qs
  if filters.status == some "funded" then
    qs.filter (fun p => decide (p.target_amount ≤ p.donation_amount))
  else if filters.status == some "active" then
    qs.filter (fun p => decide (now < p.end_date))
  else if filters.status == some "ending_soon" then
    qs.filter (fun p => decide (p.end_date ≤ now + 7 * 86400) && decide (now < p.end_date))
  else qs

/-- `ProjectsService.search_projects` (`pages/project_services.py` lines 21
to 85).  The `score` column exists only when `sort_by == 'relevance'` and
the query is non-empty (lines 74 to 80); ordering by `-score` without the
annotation is the Django `FieldError` raised when the keyword cannot be
resolved, modelled as `Except.error`. -/
def search_projects (query : String) (filters : SearchFilters) (now : Int)
    (projects : List Project) : Except String (List Project) :=
  let base := filter_projects query filters now projects
  let sortBy := filters.sort.getD "newest"
  let hasScore := sortBy == "relevance" && !(query == "")
  let orderKey := resolvedOrderKey filters
  if orderKey == "-score" && !hasScore then
    Except.error "Cannot resolve keyword score into field"
  else
    Except.ok (djangoSort (orderLE query orderKey) base)

/-- The featured score of `ProjectsService.get_featured_projects`
(`pages/project_services.py` lines 12 to 19):
`donation_amount * 0.7 + views_count * 0.2 + donors * 0.1`. -/
def featuredScore (p : Project) : ℚ :=
  p.donation_amount * (7 / 10) + (p.views_count : ℚ) * (2 / 10) + (p.donors : ℚ) * (1 / 10)

/-- `ProjectsService.get_featured_projects` (`pages/project_services.py`
lines 12 to 19): active projects by `('-score', '-created_at')`, truncated.
The two-key `order_by` is the lexicographic comparison below. -/
def get_featured_projects (limit : Nat) (projects : List Project) : List Project :=
  (djangoSort
    (fun a b => decide (featuredScore b < featuredScore a ∨
      (featuredScore a = featuredScore b ∧ b.created_at ≤ a.created_at)))
    (projects.filter (fun p => p.status == "active"))).take limit

/-! ## Analytics (`ProjectsService.get_project_analytics`) -/

/-- The prediction part of the report returned by
`ProjectsService.get_project_analytics`.  The daily time series and the
aggregate donation statistics of the same dictionary are presentation
aggregation over the donations table and are not needed by any property
proved here, so the report carries the four numeric prediction fields. -/
structure AnalyticsReport where
  funding_velocity : ℚ
  required_daily_funding : ℚ
  success_probability : ℚ
  days_active : Int
deriving DecidableEq

/-- `ProjectsService.get_project_analytics` (`pages/project_services.py`
lines 110 to 131), prediction metrics:
`days_active = max((now - created_at).days, 1)`,
`funding_velocity = donation_amount / days_active`,
`required_daily_funding = amount_needed / max(days_left, 1)` when the amount
still needed is positive and `0` otherwise, and
`success_probability = min((funded_percentage / 100) * (funding_velocity /
max(required_daily_funding, 0.01)), 1.0)` when `required_daily_funding > 0`,
else `1.0`. -/
def get_project_analytics (p : Project) (now : Int) : AnalyticsReport :=
  let days_active : Int := max ((now - p.created_at) / 86400) 1
  let funding_velocity : ℚ := p.donation_amount / (days_active : ℚ)
  let days_remaining : Int := max (days_left p now) 1
  let amount_needed : ℚ := p.target_amount - p.donation_amount
  let required_daily_funding : ℚ :=
    if 0 < amount_needed then amount_needed / (days_remaining : ℚ) else 0
  let success_probability : ℚ :=
    if 0 < required_daily_funding then
      min ((funded_percentage p / 100) *
           (funding_velocity / max required_daily_funding (1 / 100))) 1
    else 1
  ⟨funding_velocity, required_daily_funding, success_probability, days_active⟩

/-! ## Trending (`ProjectsService.get_trending_projects`) -/

/-- `Count('donations', filter=Q(donations__created_at__gte=cutoff_date))`
for one project. -/
def recentDonations (s : Store) (cutoff : Int) (pid : Nat) : Nat :=
  (s.donations.filter (fun d => d.projectId == pid && decide (cutoff ≤ d.created_at))).length

/-- `Count('comments', filter=Q(comments__created_at__gte=cutoff_date))`
for one project. -/
def recentComments (s : Store) (cutoff : Int) (pid : Nat) : Nat :=
  (s.comments.filter (fun c => c.projectId == pid && decide (cutoff ≤ c.created_at))).length

/-- `Count('likes', filter=Q(likes__created_at__gte=cutoff_date))` for one
project. -/
def recentLikes (s : Store) (cutoff : Int) (pid : Nat) : Nat :=
  (s.likes.filter (fun l => l.projectId == pid && decide (cutoff ≤ l.created_at))).length

/-- The trending annotation of `get_trending_projects`
(`pages/project_services.py` line 227):
`recent_donations * 3 + recent_comments * 2 + recent_likes`. -/
def trendingScore (s : Store) (cutoff : Int) (pid : Nat) : Nat :=
  recentDonations s cutoff pid * 3 + recentComments s cutoff pid * 2 + recentLikes s cutoff pid

/-- `ProjectsService.get_trending_projects` (`pages/project_services.py`
lines 216 to 228): active projects annotated with the trending score over
the trailing `days` window, filtered to score above zero, ordered by
descending score, truncated to `limit`. -/
def get_trending_projects (s : Store) (now : Int) (days : Int) (limit : Nat) :
    List Project :=
  let cutoff := now - days * 86400
  ((djangoSort (fun a b => decide (trendingScore s cutoff b.id ≤ trendingScore s cutoff a.id))
    ((s.projects.filter (fun p => p.status == "active")).filter
      (fun p => decide (0 < trendingScore s cutoff p.id))))).take limit

/-! ## Concrete fixtures used by witnesses and counterexamples -/

/-- An active demo project (creator 7, ends well in the future). -/
def demoProject : Project :=
  ⟨1, "demo", "d", "a", 100, 50, "art", 7, "Ann", "Lee", "active", 0, 1000000, 1, 3⟩

/-- A store holding `demoProject` and one earlier donation by donor 5. -/
def demoStore : Store :=
  ⟨[demoProject], [⟨10, 1, 5, 20, "", false, 0⟩], [], []⟩

/-! ## Helper lemmas -/

/-- `List.any` only depends on the values of the predicate on members. -/
theorem any_congr_mem {α : Type} {p q : α → Bool} :
    ∀ {l : List α}, (∀ a ∈ l, p a = q a) → l.any p = l.any q
  | [], _ => rfl
  | a :: t, h => by
    simp only [List.any_cons]
    rw [h a (List.mem_cons_self a t),
        any_congr_mem (fun x hx => h x (List.mem_cons_of_mem a hx))]

/-- Updating the rows matching a key with an id-preserving function commutes
with looking the key up. -/
theorem find?_map_ite (pid : Nat) (g : Project → Project)
    (hg : ∀ x, (g x).id = x.id) (p : Project) :
    ∀ (l : List Project), l.find? (fun x => x.id == pid) = some p →
      (l.map (fun x => if x.id == pid then g x else x)).find? (fun x => x.id == pid)
        = some (g p) := by
  intro l
  induction l with
  | nil => intro h; simp at h
  | cons a t ih =>
    intro h
    by_cases ha : (a.id == pid) = true
    · rw [@List.find?_cons_of_pos Project (fun x => x.id == pid) a t ha] at h
      injection h with h
      subst h
      have hhead : (if a.id == pid then g a else a) = g a := by
        simp [ha]
      have hga : ((fun x : Project => x.id == pid) (g a)) = true := by
        simpa [hg a] using ha
      rw [List.map_cons, hhead]
      exact @List.find?_cons_of_pos Project (fun x => x.id == pid) (g a) _ hga
    · rw [@List.find?_cons_of_neg Project (fun x => x.id == pid) a t ha] at h
      have hhead : (if a.id == pid then g a else a) = a := by
        simp [ha]
      rw [List.map_cons, hhead,
          @List.find?_cons_of_neg Project (fun x => x.id == pid) a _ ha]
      exact ih h

/-- When the end date has passed, `days_left` is zero. -/
theorem days_left_of_ended (p : Project) (now : Int) (h : p.end_date ≤ now) :
    days_left p now = 0 := by
  unfold days_left
  rw [if_neg (not_lt.mpr h)]

/-- Every `order_by` comparison of `search_projects` is total. -/
theorem orderLE_total (query key : String) (a b : Project) :
    orderLE query key a b = true ∨ orderLE query key b a = true := by
  unfold orderLE
  split <;> simp only [decide_eq_true_eq] <;> exact le_total _ _

/-- Every `order_by` comparison of `search_projects` is transitive. -/
theorem orderLE_trans (query key : String) (a b c : Project)
    (h₁ : orderLE query key a b = true) (h₂ : orderLE query key b c = true) :
    orderLE query key a c = true := by
  unfold orderLE at h₁ h₂ ⊢
  split at h₁ <;> simp only [decide_eq_true_eq] at h₁ h₂ ⊢ <;>
    exact le_trans (by assumption) (by assumption)

/-- A stable sort returns a permutation of its input. -/
theorem djangoSort_perm (le : Project → Project → Bool) (l : List Project) :
    (djangoSort le l).Perm l :=
  List.perm_insertionSort (boolRel le) l

/-- A stable sort with a total and transitive comparator sorts. -/
theorem djangoSort_sorted (le : Project → Project → Bool)
    (htot : ∀ a b, le a b = true ∨ le b a = true)
    (htrans : ∀ a b c, le a b = true → le b c = true → le a c = true)
    (l : List Project) : List.Sorted (boolRel le) (djangoSort le l) := by
  haveI : IsTotal Project (boolRel le) := ⟨htot⟩
  haveI : IsTrans Project (boolRel le) := ⟨htrans⟩
  exact List.sorted_insertionSort (boolRel le) l

/-- Stability: the subsequence of rows lying in one tie class (a set of
rows that compare both ways) is exactly the corresponding subsequence of
the input, in input order. -/
theorem djangoSort_stable_filter (le : Project → Project → Bool)
    (l : List Project) (c : Project → Bool)
    (hc : ∀ a b, c a = true → c b = true → le a b = true) :
    (djangoSort le l).filter c = l.filter c := by
  have hsub : (l.filter c).Sublist l := List.filter_sublist l
  have hpair : (l.filter c).Pairwise (boolRel le) :=
    List.pairwise_of_forall_mem_list
      (fun a ha b hb => hc a b (List.of_mem_filter ha) (List.of_mem_filter hb))
  have h₁ : (l.filter c).Sublist (djangoSort le l) :=
    List.sublist_insertionSort hpair hsub
  have h₂ : (l.filter c).filter c = l.filter c :=
    List.filter_eq_self.mpr (fun a ha => List.of_mem_filter ha)
  have h₃ : (l.filter c).Sublist ((djangoSort le l).filter c) := by
    have := List.Sublist.filter c h₁
    rwa [h₂] at this
  have h₄ : ((djangoSort le l).filter c).Perm (l.filter c) :=
    (djangoSort_perm le l).filter c
  exact (h₃.eq_of_length h₄.length_eq.symm).symm

/-! ## Claim theorems -/

/-- C1: `process_donation` fails whenever the amount is below the 1.00
minimum, the status is not active, or the campaign end time has passed; and
every failure returns the entry store unchanged, so no donation row is
created and the raised amount and donor count of every project are intact. -/
theorem process_donation_validation_atomic (s : Store) (p : Project)
    (userId : Nat) (amount : ℚ) (message : String) (is_anonymous : Bool)
    (now : Int) (freshId : Nat) :
    ((p.end_date ≤ now ∨ amount < 1 ∨ p.status ≠ "active") →
      ∃ e, (process_donation s p userId amount message is_anonymous now freshId).2
        = Except.error e)
    ∧ (∀ e, (process_donation s p userId amount message is_anonymous now freshId).2
        = Except.error e →
      (process_donation s p userId amount message is_anonymous now freshId).1 = s) := by
  constructor
  · intro h
    unfold process_donation
    by_cases h₁ : days_left p now ≤ 0
    · rw [if_pos h₁]; exact ⟨_, rfl⟩
    · rw [if_neg h₁]
      by_cases h₂ : amount < 1
      · rw [if_pos h₂]; exact ⟨_, rfl⟩
      · rw [if_neg h₂]
        have h₃ : ¬ p.status = "active" := by
          rcases h with hend | hamt | hst
          · exact absurd (le_of_eq (days_left_of_ended p now hend)) h₁
          · exact absurd hamt h₂
          · exact hst
        have h₃b : (!(p.status == "active")) = true := by
          simp [h₃]
        rw [if_pos h₃b]; exact ⟨_, rfl⟩
  · intro e he
    unfold process_donation at he ⊢
    by_cases h₁ : days_left p now ≤ 0
    · rw [if_pos h₁]
    · rw [if_neg h₁] at he ⊢
      by_cases h₂ : amount < 1
      · rw [if_pos h₂]
      · rw [if_neg h₂] at he ⊢
        by_cases h₃ : (!(p.status == "active")) = true
        · rw [if_pos h₃]
        · rw [if_neg h₃] at he
          simp at he

/-- Witness for C1: donating 0 (below the minimum) to the demo project is
rejected. -/
theorem process_donation_validation_atomic_witness :
    ∃ e, (process_donation demoStore demoProject 9 0 "" false 0 42).2
      = Except.error e :=
  (process_donation_validation_atomic demoStore demoProject 9 0 "" false 0 42).1
    (Or.inr (Or.inl (by norm_num)))

/-- C2: inserting a donation row adds its amount to the donation amount of
exactly the parent project, and increments the donor count by one precisely
when the donor had no prior donation to that project (the primary key of
the new row is fresh). -/
theorem donation_save_raised_and_donor_count (s : Store) (d : DonationRec)
    (p : Project) (hfind : findProject s d.projectId = some p)
    (hfresh : ∀ e ∈ s.donations, e.id ≠ d.id) :
    ∃ q, findProject (donation_save s d) d.projectId = some q ∧
      q.donation_amount = p.donation_amount + d.amount ∧
      q.donors = p.donors +
        (if hadPriorDonation s d.projectId d.donorId then 0 else 1) := by
  have hany : ((s.donations ++ [d]).any
      (fun e => e.projectId == d.projectId && e.donorId == d.donorId && !(e.id == d.id)))
      = hadPriorDonation s d.projectId d.donorId := by
    rw [List.any_append]
    have h₂ : ([d].any
        (fun e => e.projectId == d.projectId && e.donorId == d.donorId && !(e.id == d.id)))
        = false := by simp
    rw [h₂, Bool.or_false]
    unfold hadPriorDonation
    apply any_congr_mem
    intro a ha
    have hne : (a.id == d.id) = false := by
      simp only [beq_eq_false_iff_ne, ne_eq]
      exact hfresh a ha
    simp [hne]
  refine ⟨{ p with
      donation_amount := p.donation_amount + d.amount,
      donors := p.donors +
        (if hadPriorDonation s d.projectId d.donorId then 0 else 1) },
    ?_, rfl, rfl⟩
  simp only [findProject, donation_save]
  have hmap := find?_map_ite d.projectId
    (fun x => { x with
      donation_amount := x.donation_amount + d.amount,
      donors := x.donors + (if ((s.donations ++ [d]).any
        (fun e => e.projectId == d.projectId && e.donorId == d.donorId
          && !(e.id == d.id))) then 0 else 1) })
    (fun x => rfl) p s.projects hfind
  rw [hany]
  rw [hany] at hmap
  exact hmap

/-- Witness for C2: donor 5 already donated to project 1 in `demoStore`, so
a second donation leaves the donor count at `donors + 0`. -/
theorem donation_save_raised_and_donor_count_witness :
    ∃ q, findProject (donation_save demoStore ⟨42, 1, 5, 25, "", false, 5⟩) 1 = some q ∧
      q.donation_amount = demoProject.donation_amount + 25 ∧
      q.donors = demoProject.donors + (if hadPriorDonation demoStore 1 5 then 0 else 1) :=
  donation_save_raised_and_donor_count demoStore ⟨42, 1, 5, 25, "", false, 5⟩
    demoProject (by rfl) (by decide)

/-- C3: `funded_percentage` is `min((raised / target) * 100, 100)` for a
positive target and `0` otherwise, hence it lies in `[0, 100]` for every
project with a nonnegative raised amount (the raised amount starts at zero
and only grows by donation amounts), however large the raised/target ratio
gets. -/
theorem funded_percentage_formula_and_bounds (p : Project) :
    (0 < p.target_amount →
      funded_percentage p = min ((p.donation_amount / p.target_amount) * 100) 100)
    ∧ (p.target_amount ≤ 0 → funded_percentage p = 0)
    ∧ (0 ≤ p.donation_amount →
        0 ≤ funded_percentage p ∧ funded_percentage p ≤ 100) := by
  unfold funded_percentage
  refine ⟨fun h => if_pos h, fun h => if_neg (not_lt.mpr h), fun hd => ?_⟩
  by_cases h : 0 < p.target_amount
  · rw [if_pos h]
    exact ⟨le_min (mul_nonneg (div_nonneg hd h.le) (by norm_num)) (by norm_num),
           min_le_right _ _⟩
  · rw [if_neg h]
    norm_num

/-- Witness for C3: the demo project (target 100, raised 50) has funded
percentage `min(50 / 100 * 100, 100)`, which lies in `[0, 100]`. -/
theorem funded_percentage_formula_and_bounds_witness :
    funded_percentage demoProject = min ((50 / 100 : ℚ) * 100) 100 ∧
    0 ≤ funded_percentage demoProject ∧ funded_percentage demoProject ≤ 100 :=
  ⟨(funded_percentage_formula_and_bounds demoProject).1 (by decide),
   (funded_percentage_formula_and_bounds demoProject).2.2 (by decide)⟩

/-- C6: the prediction metrics of `get_project_analytics`: the success
probability is exactly `1` whenever the required daily funding is zero or
negative, and otherwise equals
`min((funded_percentage / 100) * (velocity / max(required, 0.01)), 1)`,
where the funding velocity is the raised amount divided by
`max(days_active, 1)`. -/
theorem get_project_analytics_success_probability (p : Project) (now : Int) :
    ((get_project_analytics p now).required_daily_funding ≤ 0 →
      (get_project_analytics p now).success_probability = 1)
    ∧ (0 < (get_project_analytics p now).required_daily_funding →
      (get_project_analytics p now).success_probability =
        min ((funded_percentage p / 100) *
          ((get_project_analytics p now).funding_velocity /
            max (get_project_analytics p now).required_daily_funding (1 / 100))) 1)
    ∧ (get_project_analytics p now).funding_velocity =
        p.donation_amount / ((max ((now - p.created_at) / 86400) 1 : Int) : ℚ) := by
  unfold get_project_analytics
  refine ⟨fun h => ?_, fun h => ?_, rfl⟩
  · simp only at h ⊢
    rw [if_neg (not_lt.mpr h)]
  · simp only at h ⊢
    rw [if_pos h]

/-- C9: `search_projects` with an empty query and no other filters returns
exactly the projects with status active, none added and none removed
(the result is a permutation of the active subsequence of the store). -/
theorem search_projects_empty_query_active_set (now : Int) (l : List Project) :
    ∃ r, search_projects "" noFilters now l = Except.ok r ∧
      r.Perm (l.filter (fun p => p.status == "active")) :=
  ⟨djangoSort (orderLE "" "-created_at") (l.filter (fun p => p.status == "active")),
   rfl, djangoSort_perm _ _⟩

/-- The filter dictionary selecting the relevance sort. -/
def relevanceFilters : SearchFilters := ⟨none, none, none, none, some "relevance"⟩

/-- C10: sorting by relevance with an empty query orders by the undefined
`score` column and errors instead of falling back to the newest ordering;
with any non-empty query the relevance sort succeeds. -/
theorem search_projects_relevance_requires_nonempty_query (now : Int)
    (l : List Project) (q : String) :
    search_projects "" relevanceFilters now l
      = Except.error "Cannot resolve keyword score into field"
    ∧ (q ≠ "" → ∃ r, search_projects q relevanceFilters now l = Except.ok r) := by
  refine ⟨rfl, fun hq => ?_⟩
  have hq2 : (q == "") = false := by
    simp [hq]
  refine ⟨djangoSort (orderLE q "-score") (filter_projects q relevanceFilters now l), ?_⟩
  unfold search_projects
  simp [relevanceFilters, resolvedOrderKey, sort_options, hq2]
  rfl

/-- Witness for C10: a concrete non-empty query succeeds under the
relevance sort. -/
theorem search_projects_relevance_requires_nonempty_query_witness :
    ∃ r, search_projects "art" relevanceFilters 0 [] = Except.ok r :=
  (search_projects_relevance_requires_nonempty_query 0 [] "art").2 (by decide)

/-- C8: with the same query and filters, the `most_funded` and
`least_funded` orders carry exactly reversed sequences of raised amounts:
the two orders are reverses of each other up to the placement of projects
tied on the raised amount. -/
theorem search_projects_most_least_funded_reverse (query : String)
    (category : Option String) (mn mx : Option ℚ) (st : Option String)
    (now : Int) (l : List Project) :
    ∃ r₁ r₂,
      search_projects query ⟨category, mn, mx, st, some "most_funded"⟩ now l
        = Except.ok r₁
      ∧ search_projects query ⟨category, mn, mx, st, some "least_funded"⟩ now l
        = Except.ok r₂
      ∧ r₁.map (fun p => p.donation_amount)
        = (r₂.map (fun p => p.donation_amount)).reverse := by
  refine ⟨_, _, rfl, rfl, ?_⟩
  haveI : IsAntisymm ℚ (fun x y : ℚ => y ≤ x) :=
    ⟨fun a b h₁ h₂ => le_antisymm h₂ h₁⟩
  set base := filter_projects query ⟨category, mn, mx, st, some "most_funded"⟩ now l
    with hbase
  have hbase₂ :
      filter_projects query ⟨category, mn, mx, st, some "least_funded"⟩ now l = base := rfl
  rw [hbase₂]
  set le₁ := orderLE query "-donation_amount" with hle₁
  set le₂ := orderLE query "donation_amount" with hle₂
  have hsorted₁ : List.Sorted (boolRel le₁) (djangoSort le₁ base) :=
    djangoSort_sorted le₁ (orderLE_total query "-donation_amount")
      (orderLE_trans query "-donation_amount") base
  have hsorted₂ : List.Sorted (boolRel le₂) (djangoSort le₂ base) :=
    djangoSort_sorted le₂ (orderLE_total query "donation_amount")
      (orderLE_trans query "donation_amount") base
  have hm₁ : ((djangoSort le₁ base).map (fun p => p.donation_amount)).Pairwise
      (fun x y : ℚ => y ≤ x) := by
    refine List.Pairwise.map _ ?_ hsorted₁
    intro a b hab
    exact of_decide_eq_true hab
  have hm₂ : ((djangoSort le₂ base).map (fun p => p.donation_amount)).Pairwise
      (fun x y : ℚ => x ≤ y) := by
    refine List.Pairwise.map _ ?_ hsorted₂
    intro a b hab
    exact of_decide_eq_true hab
  have hrev : (((djangoSort le₂ base).map (fun p => p.donation_amount)).reverse).Pairwise
      (fun x y : ℚ => y ≤ x) :=
    List.pairwise_reverse.mpr hm₂
  have hperm : ((djangoSort le₁ base).map (fun p => p.donation_amount)).Perm
      (((djangoSort le₂ base).map (fun p => p.donation_amount)).reverse) := by
    have h₁ := (djangoSort_perm le₁ base).map (fun p => p.donation_amount)
    have h₂ := (djangoSort_perm le₂ base).map (fun p => p.donation_amount)
    have h₃ := List.reverse_perm ((djangoSort le₂ base).map (fun p => p.donation_amount))
    exact (h₁.trans h₂.symm).trans h₃.symm
  exact List.eq_of_perm_of_sorted hperm hm₁ hrev

/-- Two active projects tied on the raised amount, with distinct ids. -/
def cxA : Project :=
  ⟨1, "alpha", "d", "x", 100, 50, "art", 3, "Ann", "A", "active", 5, 1000000, 0, 0⟩

/-- See `cxA`. -/
def cxB : Project :=
  ⟨2, "beta", "d", "x", 100, 50, "art", 4, "Ben", "B", "active", 5, 1000000, 0, 0⟩

/-- The filter dictionary selecting the `most_funded` sort. -/
def mostFundedFilters : SearchFilters := ⟨none, none, none, none, some "most_funded"⟩

/-- C4 counterexample: `cxA` and `cxB` tie on the raised amount, yet the
`most_funded` order returns them in whichever order the store yields them:
the same data presented in the two enumeration orders produces two
different result orders, so ties are not broken by the entity identifier
and the order is not reproducible from the data alone. -/
theorem search_projects_tie_order_not_reproducible :
    search_projects "" mostFundedFilters 0 [cxB, cxA] = Except.ok [cxB, cxA]
    ∧ search_projects "" mostFundedFilters 0 [cxA, cxB] = Except.ok [cxA, cxB]
    ∧ ([cxB, cxA] : List Project).Perm [cxA, cxB]
    ∧ cxA.donation_amount = cxB.donation_amount
    ∧ cxA.id ≠ cxB.id
    ∧ ([cxB, cxA] : List Project) ≠ [cxA, cxB] := by
  refine ⟨rfl, rfl, ?_, rfl, by decide, by decide⟩
  exact List.Perm.swap cxA cxB []

/-- C4 amended: projects that compare equal on the applied sort key are not
reordered by any secondary key (in particular not by the entity
identifier): every tie class of the result is exactly the corresponding
subsequence of the filtered base set, in store order, so the order is
reproducible only when the store enumeration order is itself stable. -/
theorem search_projects_ties_keep_store_order (query : String)
    (f : SearchFilters) (now : Int) (l : List Project) (r : List Project)
    (h : search_projects query f now l = Except.ok r)
    (c : Project → Bool)
    (hc : ∀ a b, c a = true → c b = true →
      orderLE query (resolvedOrderKey f) a b = true) :
    r.filter c = (filter_projects query f now l).filter c := by
  simp only [search_projects] at h
  split at h
  · cases h
  · injection h with h
    subst h
    exact djangoSort_stable_filter _ _ c hc

/-- Witness for C4 amended: the tie class of raised amount 50 in the sorted
result equals the same class of the base set, in store order. -/
theorem search_projects_ties_keep_store_order_witness :
    ([cxB, cxA] : List Project).filter (fun p => p.donation_amount == 50)
      = (filter_projects "" mostFundedFilters 0 [cxB, cxA]).filter
          (fun p => p.donation_amount == 50) :=
  search_projects_ties_keep_store_order "" mostFundedFilters 0 [cxB, cxA]
    [cxB, cxA] rfl (fun p => p.donation_amount == 50)
    (fun a b ha hb => by
      have ha₂ : a.donation_amount = 50 := by
        simpa using ha
      have hb₂ : b.donation_amount = 50 := by
        simpa using hb
      have hkey : resolvedOrderKey mostFundedFilters = "-donation_amount" := rfl
      show orderLE "" (resolvedOrderKey mostFundedFilters) a b = true
      rw [hkey]
      simp [orderLE, ha₂, hb₂])

/-- A fully funded demo project: its required daily funding is zero. -/
def demoFunded : Project :=
  ⟨2, "done", "d", "a", 100, 100, "art", 7, "Bo", "Ng", "active", 0, 1000000, 2, 0⟩

/-- An active project with, relative to `now = 0` and a 7 day window, 2
recent donations, 1 recent comment and 3 recent likes. -/
def trendProj : Project :=
  ⟨1, "t", "d", "a", 100, 10, "art", 7, "A", "B", "active", 0, 1000000, 2, 0⟩

/-- The store holding `trendProj` and its recent activity. -/
def trendStore : Store :=
  ⟨[trendProj],
   [⟨1, 1, 5, 5, "", false, 0⟩, ⟨2, 1, 6, 5, "", false, 0⟩],
   [⟨1, 1, 5, 0⟩],
   [⟨1, 1, 5, 0⟩, ⟨2, 1, 6, 0⟩, ⟨3, 1, 7, 0⟩]⟩

/-- C7: over the trailing window every returned trending project is active
with score `recent_donations * 3 + recent_comments * 2 + recent_likes`
strictly above zero, the result is in descending score order, and the
worked example (2 recent donations, 1 recent comment, 3 recent likes)
scores 11. -/
theorem get_trending_projects_spec :
    (∀ (s : Store) (now days : Int) (limit : Nat),
      (∀ p ∈ get_trending_projects s now days limit,
        p.status = "active" ∧ 0 < trendingScore s (now - days * 86400) p.id)
      ∧ (get_trending_projects s now days limit).Pairwise
          (fun a b => trendingScore s (now - days * 86400) b.id
            ≤ trendingScore s (now - days * 86400) a.id)
      ∧ (∀ pid, trendingScore s (now - days * 86400) pid
          = recentDonations s (now - days * 86400) pid * 3
            + recentComments s (now - days * 86400) pid * 2
            + recentLikes s (now - days * 86400) pid))
    ∧ trendingScore trendStore (0 - 7 * 86400) 1 = 11 := by
  refine ⟨fun s now days limit => ⟨?_, ?_, fun pid => rfl⟩, by decide⟩
  · intro p hp
    simp only [get_trending_projects] at hp
    have hp₂ := List.mem_of_mem_take hp
    have hp₃ := (djangoSort_perm _ _).mem_iff.mp hp₂
    have hscore := List.of_mem_filter hp₃
    have hp₄ := List.mem_of_mem_filter hp₃
    have hactive := List.of_mem_filter hp₄
    refine ⟨?_, of_decide_eq_true hscore⟩
    simpa using hactive
  · simp only [get_trending_projects]
    refine List.Pairwise.sublist (List.take_sublist _ _) ?_
    have hsorted := djangoSort_sorted
      (fun a b => decide (trendingScore s (now - days * 86400) b.id
        ≤ trendingScore s (now - days * 86400) a.id))
      (fun a b => by simp only [decide_eq_true_eq]; exact le_total _ _)
      (fun a b c h₁ h₂ => by
        simp only [decide_eq_true_eq] at h₁ h₂ ⊢
        exact le_trans h₂ h₁)
      ((s.projects.filter (fun p => p.status == "active")).filter
        (fun p => decide (0 < trendingScore s (now - days * 86400) p.id)))
    exact hsorted.imp (fun hab => of_decide_eq_true hab)

/-- Witness for C7: the demo trending project is returned, active, and its
score is positive. -/
theorem get_trending_projects_spec_witness :
    trendProj.status = "active"
    ∧ 0 < trendingScore trendStore (0 - 7 * 86400) trendProj.id :=
  (get_trending_projects_spec.1 trendStore 0 7 6).1 trendProj (by decide)

/-- A store holding only `demoProject` (creator 7) and no donations. -/
def selfStore : Store := ⟨[demoProject], [], [], []⟩

/-- C5 counterexample: user 7 is the creator of `demoProject`, yet
`process_donation` accepts the donation of 5 from user 7 and inserts a
donation row, so self-donation is neither rejected nor free of state
change. -/
theorem process_donation_accepts_self_donation :
    demoProject.creator_id = 7
    ∧ (process_donation selfStore demoProject 7 5 "" false 0 42).2.isOk = true
    ∧ (process_donation selfStore demoProject 7 5 "" false 0 42).1.donations
        = [⟨42, 1, 7, 5, "", false, 0⟩]
    ∧ selfStore.donations = [] :=
  ⟨rfl, rfl, rfl, rfl⟩

/-- C5 amended: `process_donation` performs no creator check: when the
other validations pass, a donation by the creator of the project is
recorded like any other.  Only `check_donation_eligibility`, which
`process_donation` never invokes, flags self-donation as an error. -/
theorem process_donation_self_donation_not_rejected (s : Store) (p : Project)
    (amount : ℚ) (message : String) (is_anonymous : Bool) (now : Int)
    (freshId : Nat) (hdays : 0 < days_left p now) (hamt : 1 ≤ amount)
    (hstatus : p.status = "active") :
    (process_donation s p p.creator_id amount message is_anonymous now freshId).2.isOk
      = true
    ∧ (check_donation_eligibility p p.creator_id now).1 = false
    ∧ "You cannot donate to your own project"
        ∈ (check_donation_eligibility p p.creator_id now).2 := by
  refine ⟨?_, ?_, ?_⟩
  · unfold process_donation
    rw [if_neg (not_le.mpr hdays), if_neg (not_lt.mpr hamt)]
    have hcond : (!(p.status == "active")) = false := by
      simp [hstatus]
    rw [hcond]
    rfl
  · unfold check_donation_eligibility
    simp
  · unfold check_donation_eligibility
    simp

/-- Witness for C5 amended: the creator of the demo project donates 5 to it
and the call succeeds while the eligibility checker reports the
self-donation error. -/
theorem process_donation_self_donation_not_rejected_witness :
    (process_donation selfStore demoProject demoProject.creator_id 5 "" false 0 42).2.isOk
      = true
    ∧ (check_donation_eligibility demoProject demoProject.creator_id 0).1 = false
    ∧ "You cannot donate to your own project"
        ∈ (check_donation_eligibility demoProject demoProject.creator_id 0).2 :=
  process_donation_self_donation_not_rejected selfStore demoProject 5 "" false 0 42
    (by decide) (by decide) rfl

/-- Witness for C6: the fully funded demo project has required daily
funding zero, so its success probability is exactly `1`. -/
theorem get_project_analytics_success_probability_witness :
    (get_project_analytics demoFunded 0).success_probability = 1 :=
  (get_project_analytics_success_probability demoFunded 0).1
    (by norm_num [get_project_analytics, days_left, demoFunded])
